import Mathlib

/-!
Shallow embedding of the data-preparation and classification routines of
`f451-common` (`src/f451_common/common.py` and `src/f451_common/cli_ui.py`).

Numbers are embedded as rationals (`ℚ`); a Python value that may be `None`
is an `Option ℚ`.  Python truthiness matters in this code (`all(...)` /
`any(...)` over tuples and lists treat both `None` and `0` as falsy), so it
is modelled explicitly by `truthy`.  Functions that can raise in Python are
embedded in `Except String`; total Python functions are total Lean
functions.
-/

/-- Python truthiness of a number-or-None: `None` and `0` are falsy. -/
def truthy (v : Option ℚ) : Bool :=
  match v with
  | none => false
  | some q => decide (q ≠ 0)

/-- Python `all(t)` over a 2-tuple of number-or-None values. -/
def pyAll2 (t : Option ℚ × Option ℚ) : Bool :=
  truthy t.1 && truthy t.2

/-- Python `any(t)` over a 2-tuple of number-or-None values. -/
def pyAny2 (t : Option ℚ × Option ℚ) : Bool :=
  truthy t.1 || truthy t.2

/-- Python `all(l)` over a list of number-or-None values (`all([]) = True`). -/
def pyAllL (l : List (Option ℚ)) : Bool :=
  l.all truthy

/-- Embedding of `common.is_valid(val, valid, allowNone=True)`.

Source (`common.py`):
```
if valid is None or not all(valid): return allowNone
if val is not None and any(valid):
    isValid = True
    if valid[0] is not None: isValid &= float(val) >= float(valid[0])
    if valid[1] is not None: isValid &= float(val) <= float(valid[1])
    return isValid
return False
```
-/
def is_valid (val : Option ℚ) (valid : Option (Option ℚ × Option ℚ))
    (allowNone : Bool) : Bool :=
  match valid with
  | none => allowNone
  | some t =>
      if pyAll2 t = false then allowNone
      else
        match val with
        | some v =>
            if pyAny2 t then
              (match t.1 with
               | none => true
               | some lo => decide (lo ≤ v)) &&
              (match t.2 with
               | none => true
               | some hi => decide (v ≤ hi))
            else false
        | none => false

/-- Embedding of `common.is_in_range(first, second, factor)`.

Source: returns `True` when either argument is `None`; otherwise computes
`lower = second * (1 - factor)`, `upper = second * (1 + factor)` and
returns `is_valid(first, (lower, upper))` (with `allowNone` at its default
`True`). -/
def is_in_range (first second : Option ℚ) (factor : ℚ) : Bool :=
  match first, second with
  | some f, some s =>
      is_valid (some f) (some (some (s * (1 - factor)), some (s * (1 + factor)))) true
  | _, _ => true

/-- Embedding of `common.get_delta_range(first, second, factor)`.

Source: returns `0` when either argument is `None`; otherwise
`1` when `first > second * (1 + factor)`, `-1` when
`first < second * (1 - factor)`, else `0`. -/
def get_delta_range (first second : Option ℚ) (factor : ℚ) : Int :=
  match first, second with
  | some f, some s =>
      if f > s * (1 + factor) then 1
      else if f < s * (1 - factor) then -1
      else 0
  | _, _ => 0

/-- The `TriColor` named tuple of `common.get_tri_colors`. -/
structure TriColor where
  low : String
  normal : String
  high : String
deriving DecidableEq, Repr

/-- `common.COLOR_MAP`. -/
def COLOR_MAP : List String := ["red", "yellow", "green", "cyan", "blue"]

/-- `common.COLOR_LOW`. -/
def COLOR_LOW : Nat := 0

/-- `common.COLOR_NORM`. -/
def COLOR_NORM : Nat := 2

/-- `common.COLOR_HIGH`. -/
def COLOR_HIGH : Nat := 4

/-- Embedding of `common.get_tri_colors(colors=None, asRGB=False)` in its
string mode (`asRGB=False`, the mode used by `cli_ui`): picks entries
`COLOR_LOW`, `COLOR_NORM`, `COLOR_HIGH` out of the color map. -/
def get_tri_colors (colors : Option (List String)) : TriColor :=
  let colorMap := colors.getD COLOR_MAP
  { low := colorMap.getD COLOR_LOW ""
    normal := colorMap.getD COLOR_NORM ""
    high := colorMap.getD COLOR_HIGH "" }

/-- Round-half-to-even to an integer, as Python `round` does on exact
values. -/
def roundHalfEven (x : ℚ) : ℤ :=
  let n := Int.floor x
  let frac := x - n
  if frac < 1/2 then n
  else if 1/2 < frac then n + 1
  else if n % 2 = 0 then n else n + 1

/-- Python `round(x, 1)`: round to one decimal digit, half to even. -/
def pyRound1 (x : ℚ) : ℚ :=
  (roundHalfEven (10 * x) : ℚ) / 10

/-- Embedding of `common.num_to_range(num, inMinMax, outMinMax, force=False)`.

Source: raises `ValueError` when `inMinMax[0] > inMinMax[1]` or
`outMinMax[0] > outMinMax[1]`; otherwise maps `num` linearly from the input
range to the output range, clamping (`force=True`) or nulling
(`force=False`) out-of-range and missing inputs. -/
def num_to_range (num : Option ℚ) (inMinMax outMinMax : ℚ × ℚ)
    (force : Bool) : Except String (Option ℚ) :=
  if inMinMax.1 > inMinMax.2 then .error "ValueError: inMinMax"
  else if outMinMax.1 > outMinMax.2 then .error "ValueError: outMinMax"
  else
    let deltaInMinMax := if inMinMax.2 ≠ inMinMax.1 then inMinMax.2 - inMinMax.1 else 1
    let deltaOutMinMax := if outMinMax.2 ≠ outMinMax.1 then outMinMax.2 - outMinMax.1 else 1
    let num2 : Option ℚ :=
      match num with
      | none => if force then some inMinMax.1 else none
      | some n =>
          if n < inMinMax.1 ∨ n > inMinMax.2 then
            if force then some (min (max n inMinMax.1) inMinMax.2) else none
          else some n
    match num2 with
    | none => .ok none
    | some n =>
        .ok (some (max (min (outMinMax.1 + (n - inMinMax.1) / deltaInMinMax * deltaOutMinMax)
          outMinMax.2) outMinMax.1))

/-- `cli_ui.APP_DELTA_FACTOR`. -/
def APP_DELTA_FACTOR : ℚ := 2/100

/-- One entry of the sparkline emphasis map, i.e. one
`"<color>:<gt|eq|lt>:<value>"` string of `cli_ui._sparkline_colors`,
as a (color, operator, threshold) triple. -/
structure Rule where
  color : String
  op : String
  threshold : ℚ
deriving DecidableEq, Repr

/-- Embedding of `cli_ui._sparkline_colors(limits, customColors=None)`.

Source: `colors = None`; when `all(limits)` is truthy, builds the 5-entry
list `[high:gt:round(limits[2],1), normal:eq:round(limits[2],1),
normal:lt:round(limits[2],1), low:eq:round(limits[1],1),
low:lt:round(limits[1],1)]`; returns `colors`.  A `limits` that is `None`
raises `TypeError` at `all(limits)`; a truthy list shorter than 3 raises
`IndexError` at `limits[2]`. -/
def sparkline_colors (limits : Option (List (Option ℚ)))
    (customColors : Option (List String)) : Except String (Option (List Rule)) :=
  match limits with
  | none => .error "TypeError"
  | some ls =>
      if pyAllL ls then
        match ls.get? 2, ls.get? 1 with
        | some (some c), some (some b) =>
            let colorMap := get_tri_colors customColors
            .ok (some
              [{ color := colorMap.high, op := "gt", threshold := pyRound1 c },
               { color := colorMap.normal, op := "eq", threshold := pyRound1 c },
               { color := colorMap.normal, op := "lt", threshold := pyRound1 c },
               { color := colorMap.low, op := "eq", threshold := pyRound1 b },
               { color := colorMap.low, op := "lt", threshold := pyRound1 b }])
        | _, _ => .error "IndexError"
      else .ok none

/-- Embedding of `cli_ui._dataPt_color(val, limits, default=distStr, customColors=None)`.

Source: `color = default`; when `val is not None and all(limits)` is truthy,
`color` becomes `colorMap.high` when `val > round(limits[2], 1)`,
`colorMap.low` when `val <= round(limits[1], 1)`, else `colorMap.normal`.
Short-circuit: when `val is None` the limits are never inspected; when
`val` is present and `limits` is `None`, `all(limits)` raises `TypeError`. -/
def dataPt_color (val : Option ℚ) (limits : Option (List (Option ℚ)))
    (dflt : String) (customColors : Option (List String)) : Except String String :=
  let colorMap := get_tri_colors customColors
  match val with
  | none => .ok dflt
  | some v =>
      match limits with
      | none => .error "TypeError"
      | some ls =>
          if pyAllL ls then
            match ls.get? 2, ls.get? 1 with
            | some (some c), some (some b) =>
                if v > pyRound1 c then .ok colorMap.high
                else if v ≤ pyRound1 b then .ok colorMap.low
                else .ok colorMap.normal
            | _, _ => .error "IndexError"
          else .ok dflt

/-- Does one emphasis rule match a numeric point?  (`gt`/`eq`/`lt` are the
only operators `_sparkline_colors` emits.) -/
def ruleMatches (r : Rule) (v : ℚ) : Bool :=
  if r.op = "gt" then decide (v > r.threshold)
  else if r.op = "eq" then decide (v = r.threshold)
  else if r.op = "lt" then decide (v < r.threshold)
  else false

/-- Apply an emphasis-rule list first-match-wins: the color of the first
rule that matches the point, or the default when none matches.  This is
the application discipline named by the spec, not code of the repository. -/
def firstMatchColor (rules : List Rule) (v : ℚ) (dflt : String) : String :=
  match rules.find? (fun r => ruleMatches r v) with
  | some r => r.color
  | none => dflt

/-- Apply an emphasis-rule list last-match-wins: the color of the last rule
that matches the point, or the default when none matches. -/
def lastMatchColor (rules : List Rule) (v : ℚ) (dflt : String) : String :=
  firstMatchColor rules.reverse v dflt

/-- Python `lst[-g:]` for a non-negative `g`: the last `g` elements, except
that `g = 0` (Python `lst[-0:] = lst[0:]`) yields the whole list. -/
def pySliceLast (g : Nat) (l : List (Option ℚ)) : List (Option ℚ) :=
  if g = 0 then l else l.drop (l.length - g)

/-- Python `min` over a non-empty list (`none` for the empty list). -/
def listMin (l : List ℚ) : Option ℚ :=
  match l with
  | [] => none
  | x :: xs => some (xs.foldl min x)

/-- Python `max` over a non-empty list (`none` for the empty list). -/
def listMax (l : List ℚ) : Option ℚ :=
  match l with
  | [] => none
  | x :: xs => some (xs.foldl max x)

/-- One record of the `inData` mapping consumed by `cli_ui.prep_data`:
the sample window `data`, the `valid` min/max pair, the 4-entry `limits`
list, and the display `label` and `unit` strings. -/
structure DataRow where
  data : List (Option ℚ)
  valid : Option (Option ℚ × Option ℚ)
  limits : Option (List (Option ℚ))
  label : String
  unit : String
deriving DecidableEq, Repr

/-- The per-row output dict (`dataSet`) built by `cli_ui.prep_data`.
`dataPtOK` is the truthiness of the Python value
`dataPt or dataSlice[-1] is None`. -/
structure DataSet where
  sparkData : List ℚ
  sparkColors : Option (List Rule)
  sparkMinMax : Option ℚ × Option ℚ
  dataPt : Option ℚ
  dataPtOK : Bool
  dataPtDelta : Int
  dataPtColor : String
  unit : String
  label : String
deriving DecidableEq, Repr

/-- The fresh `dataSet` dict as initialized at the top of the `prep_data`
row loop (also the final value of a row when `labelsOnly` is set). -/
def init_dataSet (row : DataRow) : DataSet :=
  { sparkData := []
    sparkColors := none
    sparkMinMax := (none, none)
    dataPt := none
    dataPtOK := true
    dataPtDelta := 0
    dataPtColor := ""
    unit := row.unit
    label := row.label }

/-- The body of the `prep_data` row loop past the `labelsOnly` short-circuit,
transcribed statement by statement.  `.error` marks the statements at which
Python raises: `dataSlice[-1]` (`IndexError` on an empty slice),
`dataSlice[-2]` (`IndexError` on a slice shorter than 2), and the
limits-list accesses inside `_sparkline_colors` / `_dataPt_color`. -/
def prep_row (row : DataRow) (deltaFactor : ℚ) (conWidth : Nat) :
    Except String DataSet := do
  let graphWidth := min (conWidth / 2) 40
  let dataSlice := pySliceLast graphWidth row.data
  let dataValid := dataSlice.map (fun i => if is_valid i row.valid true then i else none)
  let dataClean := dataValid.filterMap id
  let lastRaw ← match dataSlice.getLast? with
    | some x => pure x
    | none => Except.error "IndexError"
  let dataPt := if is_valid lastRaw row.valid true then lastRaw else none
  let dataPtOK := truthy dataPt || lastRaw.isNone
  let prevRaw ← if h : 2 ≤ dataSlice.length then
      pure (dataSlice.get ⟨dataSlice.length - 2, by omega⟩)
    else Except.error "IndexError"
  let dataPtPrev := if is_valid prevRaw row.valid true then prevRaw else none
  let dataPtDelta := get_delta_range dataPt dataPtPrev deltaFactor
  let sparkColors ← sparkline_colors row.limits none
  let dataPtColor ← dataPt_color dataPt row.limits "" none
  pure
    { sparkData := dataValid.map (fun i => i.getD 0)
      sparkColors := sparkColors
      sparkMinMax :=
        if dataClean.any (fun q => decide (q ≠ 0)) then (listMin dataClean, listMax dataClean)
        else (none, none)
      dataPt := dataPt
      dataPtOK := dataPtOK
      dataPtDelta := dataPtDelta
      dataPtColor := dataPtColor
      unit := row.unit
      label := row.label }

/-- Embedding of `cli_ui.prep_data(inData, dataTypes, deltaFactor, labelsOnly,
conWidth)`.  The ordered dict `inData` is a list of key/record pairs; rows
whose key is not in `dataTypes` are skipped; `labelsOnly` rows are emitted
as the fresh `dataSet`; every other row goes through the loop body
`prep_row`, and a raise in any row aborts the call. -/
def prep_data (inData : List (String × DataRow)) (dataTypes : List String)
    (deltaFactor : ℚ) (labelsOnly : Bool) (conWidth : Nat) :
    Except String (List DataSet) :=
  match inData with
  | [] => .ok []
  | kr :: rest =>
      if dataTypes.contains kr.1 then
        if labelsOnly then do
          pure (init_dataSet kr.2 :: (← prep_data rest dataTypes deltaFactor labelsOnly conWidth))
        else do
          pure ((← prep_row kr.2 deltaFactor conWidth) ::
            (← prep_data rest dataTypes deltaFactor labelsOnly conWidth))
      else prep_data rest dataTypes deltaFactor labelsOnly conWidth

/-- State-threaded form of `prep_data`: the input mapping is the mutable
store, each loop iteration returns the row it read, and the post-state is
reassembled from those reads.  The source contains no assignment into
`inData` or `row` (every `dataSet` field is a fresh value; `list(row['data'])`
copies), so the transcription has no state-update operation. -/
def prep_data_st (inData : List (String × DataRow)) (dataTypes : List String)
    (deltaFactor : ℚ) (labelsOnly : Bool) (conWidth : Nat) :
    Except String (List DataSet) × List (String × DataRow) :=
  match inData with
  | [] => (.ok [], [])
  | kr :: rest =>
      let rowResult : Option (Except String DataSet) :=
        if dataTypes.contains kr.1 then
          some (if labelsOnly then .ok (init_dataSet kr.2) else prep_row kr.2 deltaFactor conWidth)
        else none
      let tail := prep_data_st rest dataTypes deltaFactor labelsOnly conWidth
      let outs : Except String (List DataSet) :=
        match rowResult with
        | none => tail.1
        | some (.error e) => .error e
        | some (.ok ds) => do pure (ds :: (← tail.1))
      (outs, kr :: tail.2)


/-- Severity level of a tri-color label: the position of the bucket the
scalar classifier encodes by that color (low < normal < high). -/
def triLevel (color : String) : Nat :=
  if color = "red" then 0 else if color = "green" then 1 else 2

/-- Round-half-to-even fixes the integers. -/
theorem roundHalfEven_intCast (m : ℤ) : roundHalfEven (m : ℚ) = m := by
  simp only [roundHalfEven, Int.floor_intCast, sub_self]
  norm_num

/-- `round(n, 1)` is the identity on integral rationals. -/
theorem pyRound1_intCast (n : ℤ) : pyRound1 (n : ℚ) = n := by
  have h10 : (10 : ℚ) * (n : ℚ) = ((10 * n : ℤ) : ℚ) := by push_cast; ring
  rw [pyRound1, h10, roundHalfEven_intCast]
  push_cast
  ring

/-- `round(10, 1) = 10`. -/
theorem pyRound1_ten : pyRound1 (10 : ℚ) = 10 := by
  have h := pyRound1_intCast 10
  norm_num at h
  exact h

/-- `round(20, 1) = 20`. -/
theorem pyRound1_twenty : pyRound1 (20 : ℚ) = 20 := by
  have h := pyRound1_intCast 20
  norm_num at h
  exact h

/-- C1.  The claim reads `is_valid` as constraining by every present bound.
The code instead tests `not all(valid)`, which is `True` whenever either
bound is `None` **or** `0` (Python falsy), and then returns `allowNone`
(default `True`) without comparing: a one-sided range `(10, None)` accepts
`5`, and the two-sided range `(0, 100)` accepts `999` and even a missing
value.  This contradicts the function's own docstring ("if one or both
items in the 'valid' tuple are not 'None', then we'll compare against that
item"), so the code, not the claim, is wrong. -/
theorem C1_code_eval :
    is_valid (some 5) (some (some 10, none)) true = true ∧
    is_valid (some 999) (some (some 0, some 100)) true = true ∧
    is_valid none (some (some 0, some 100)) true = true ∧
    is_valid (some 999) (some (some 1, some 100)) true = false := by
  decide

/-- C2.  Scenario A evaluated on the code: with window `[10, 12, None, 999]`
and valid range `(0, 100)`, `prep_data` does **not** filter the outlier:
`all((0, 100))` is `False` (the bound `0` is falsy), so `is_valid` accepts
everything, and the row comes out with `sparkData = [10, 12, 0, 999]`,
`sparkMinMax = (10, 999)`, `dataPt = 999` and `dataPtOK = True` — against
both the claim and `prep_data`'s own docstring ("The final data set will
have only valid values.  Any invalid values will be replaced with 0's"). -/
theorem C2_code_eval :
    prep_data
      [("test",
        { data := [some 10, some 12, none, some 999]
          valid := some (some 0, some 100)
          limits := some [some 1, some 10, some 20, some 30]
          label := "Test"
          unit := "u" })]
      ["test"] (2/100) false 80 =
    .ok [{ sparkData := [10, 12, 0, 999]
           sparkColors := some
             [{ color := "blue", op := "gt", threshold := 20 },
              { color := "green", op := "eq", threshold := 20 },
              { color := "green", op := "lt", threshold := 20 },
              { color := "red", op := "eq", threshold := 10 },
              { color := "red", op := "lt", threshold := 10 }]
           sparkMinMax := (some 10, some 999)
           dataPt := some 999
           dataPtOK := true
           dataPtDelta := 0
           dataPtColor := "blue"
           unit := "u"
           label := "Test" }] := by
  have hrow : prep_row
      { data := [some 10, some 12, none, some 999]
        valid := some (some 0, some 100)
        limits := some [some 1, some 10, some 20, some 30]
        label := "Test"
        unit := "u" } (2/100) 80 =
      .ok { sparkData := [10, 12, 0, 999]
            sparkColors := some
              [{ color := "blue", op := "gt", threshold := 20 },
               { color := "green", op := "eq", threshold := 20 },
               { color := "green", op := "lt", threshold := 20 },
               { color := "red", op := "eq", threshold := 10 },
               { color := "red", op := "lt", threshold := 10 }]
            sparkMinMax := (some 10, some 999)
            dataPt := some 999
            dataPtOK := true
            dataPtDelta := 0
            dataPtColor := "blue"
            unit := "u"
            label := "Test" } := by
    simp only [prep_row, pySliceLast]
    norm_num [is_valid, pyAll2, pyAny2, truthy, sparkline_colors, dataPt_color, pyAllL,
      get_tri_colors, COLOR_MAP, COLOR_LOW, COLOR_NORM, COLOR_HIGH, get_delta_range,
      listMin, listMax, pyRound1_ten, pyRound1_twenty]
    rfl
  simp only [prep_data, hrow]
  rfl

/-- The amended scalar-classifier contract (spec side, for comparison with
`dataPt_color`): high above `round(C, 1)`, low at or below `round(B, 1)`,
normal in between, each expressed as the tri-color the code emits. -/
def triColorSpec (v bLim cLim : ℚ) : String :=
  if pyRound1 cLim < v then "blue" else if v ≤ pyRound1 bLim then "red" else "green"

/-- C3 counterexample.  With the claim's own limits `(0, 10, 20, 30)` the
classifier returns the caller's default `''` for value `10` (not "low"):
`all(limits)` is falsy because of the entry `0`.  And with limits
`(1, 10, 20, 30)` the values `25` and `30.0001` receive the identical label
`"blue"`: there is no fifth "dangerously-high" bucket to distinguish them. -/
theorem C3_counterexample :
    dataPt_color (some 10) (some [some 0, some 10, some 20, some 30]) "" none = .ok "" ∧
    dataPt_color (some (300001/10000)) (some [some 1, some 10, some 20, some 30]) "" none =
      .ok "blue" ∧
    dataPt_color (some 25) (some [some 1, some 10, some 20, some 30]) "" none = .ok "blue" := by
  refine ⟨by rfl, ?_, ?_⟩ <;>
    norm_num [dataPt_color, pyAllL, truthy, get_tri_colors, COLOR_MAP, COLOR_LOW,
      COLOR_NORM, COLOR_HIGH, pyRound1_ten, pyRound1_twenty]

/-- C3 amended.  For a limit set whose four entries are all truthy
(non-`None` and nonzero), the scalar classifier returns exactly one of the
three tri-color labels: high (`"blue"`) iff the value exceeds
`round(C, 1)`, low (`"red"`) iff it is at most `round(B, 1)` (ties at the
rounded thresholds resolve toward the lower bucket), else normal
(`"green"`); and when `round(B,1) ≤ round(C,1)` the bucket is monotonic
non-decreasing in the value. -/
theorem C3_amended (a b c d v w : ℚ)
    (ha : a ≠ 0) (hb : b ≠ 0) (hc : c ≠ 0) (hd : d ≠ 0) :
    dataPt_color (some v) (some [some a, some b, some c, some d]) "" none =
      .ok (triColorSpec v b c) ∧
    triColorSpec v b c ∈ (["red", "green", "blue"] : List String) ∧
    (pyRound1 b ≤ pyRound1 c → v ≤ w →
      triLevel (triColorSpec v b c) ≤ triLevel (triColorSpec w b c)) := by
  refine ⟨?_, ?_, ?_⟩
  · have hall : pyAllL [some a, some b, some c, some d] = true := by
      simp [pyAllL, truthy, ha, hb, hc, hd]
    simp only [dataPt_color, hall, get_tri_colors, COLOR_MAP, COLOR_LOW, COLOR_NORM,
      COLOR_HIGH, triColorSpec, List.get?, Option.getD, List.getD, gt_iff_lt]
    split_ifs <;> rfl
  · unfold triColorSpec
    split_ifs <;> simp
  · intro hbc hvw
    unfold triColorSpec
    split_ifs <;> first | decide | (exfalso; linarith)

/-- C3 amended, witness at limits `(1, 10, 20, 30)`, values `10 ≤ 20`. -/
theorem C3_amended_witness :
    dataPt_color (some 10) (some [some 1, some 10, some 20, some 30]) "" none =
      .ok (triColorSpec 10 10 20) ∧
    triColorSpec 10 10 20 ∈ (["red", "green", "blue"] : List String) ∧
    (pyRound1 10 ≤ pyRound1 20 → (10 : ℚ) ≤ 20 →
      triLevel (triColorSpec 10 10 20) ≤ triLevel (triColorSpec 20 10 20)) :=
  C3_amended 1 10 20 30 10 20 (by norm_num) (by norm_num) (by norm_num) (by norm_num)

/-- C4 counterexample.  At `previous = latest = -100`, `f = 0.02` the band
is inverted (`previous*(1-f) = -98 > -102 = previous*(1+f)`): the code
returns `+1` (the `latest > upper` branch fires first), while the claim's
"−1 iff latest < previous*(1−f)" clause demands `-1` there, since
`-100 < -98`.  The claim's biconditionals fail for negative `previous`. -/
theorem C4_counterexample :
    get_delta_range (some (-100)) (some (-100)) (2/100) = 1 ∧
    ((-100 : ℚ) < (-100) * (1 - 2/100)) := by
  constructor
  · norm_num [get_delta_range]
  · norm_num

/-- C4 amended.  For non-`None` values with `f ≥ 0` and a non-negative
reference `previous ≥ 0` (so the band is not inverted), the trend is `+1`
iff `latest > previous*(1+f)`, `-1` iff `latest < previous*(1-f)`, and `0`
iff `latest` lies in the closed band (strict comparisons, band edges count
as flat); and the trend is `0` whenever either value is absent. -/
theorem C4_amended (p l f : ℚ) (hf : 0 ≤ f) (hp : 0 ≤ p) :
    (get_delta_range (some l) (some p) f = 1 ↔ p * (1 + f) < l) ∧
    (get_delta_range (some l) (some p) f = -1 ↔ l < p * (1 - f)) ∧
    (get_delta_range (some l) (some p) f = 0 ↔ p * (1 - f) ≤ l ∧ l ≤ p * (1 + f)) ∧
    (∀ (x : Option ℚ) (g : ℚ), get_delta_range none x g = 0 ∧ get_delta_range x none g = 0) := by
  have hband : p * (1 - f) ≤ p * (1 + f) := by nlinarith
  refine ⟨?_, ?_, ?_, ?_⟩
  · simp only [get_delta_range]
    split_ifs with h1 h2
    · simpa using h1
    · simpa using fun hh => h1 hh
    · simpa using fun hh => h1 hh
  · simp only [get_delta_range]
    split_ifs with h1 h2
    · simp only [show ((1 : ℤ) = -1) = False by simp, false_iff]
      intro hh
      linarith
    · simpa using h2
    · simpa using fun hh => h2 hh
  · simp only [get_delta_range]
    split_ifs with h1 h2
    · simp only [show ((1 : ℤ) = 0) = False by simp, false_iff, not_and]
      intro _ hh
      linarith
    · simp only [show ((-1 : ℤ) = 0) = False by simp, false_iff, not_and]
      intro hh
      linarith
    · simp only [true_iff]
      push_neg at h1 h2
      exact ⟨h2, h1⟩
  · intro x g
    cases x <;> exact ⟨rfl, rfl⟩

/-- C4 amended, witness: `previous = 100`, `latest = 103`, `f = 0.02`. -/
theorem C4_amended_witness :
    (get_delta_range (some 103) (some 100) (2/100) = 1 ↔ (100 : ℚ) * (1 + 2/100) < 103) ∧
    (get_delta_range (some 103) (some 100) (2/100) = -1 ↔ (103 : ℚ) < 100 * (1 - 2/100)) ∧
    (get_delta_range (some 103) (some 100) (2/100) = 0 ↔
      (100 : ℚ) * (1 - 2/100) ≤ 103 ∧ (103 : ℚ) ≤ 100 * (1 + 2/100)) ∧
    (∀ (x : Option ℚ) (g : ℚ), get_delta_range none x g = 0 ∧ get_delta_range x none g = 0) :=
  C4_amended 100 103 (2/100) (by norm_num) (by norm_num)
/-- A `gt` rule matches strictly above its threshold. -/
theorem ruleMatches_gt (col : String) (t v : ℚ) :
    ruleMatches { color := col, op := "gt", threshold := t } v = decide (t < v) := by
  simp [ruleMatches]

/-- An `eq` rule matches exactly at its threshold. -/
theorem ruleMatches_eq (col : String) (t v : ℚ) :
    ruleMatches { color := col, op := "eq", threshold := t } v = decide (v = t) := by
  simp [ruleMatches]

/-- A `lt` rule matches strictly below its threshold. -/
theorem ruleMatches_lt (col : String) (t v : ℚ) :
    ruleMatches { color := col, op := "lt", threshold := t } v = decide (v < t) := by
  simp [ruleMatches]

/-- C5 amended.  For a limit set whose four entries are all truthy, the
emphasis map is exactly the five (color, operator, threshold) rules in the
fixed order high:gt:round(C,1), normal:eq:round(C,1), normal:lt:round(C,1),
low:eq:round(B,1), low:lt:round(B,1); and applying those rules
**last**-match-wins (first match over the reversed list) assigns every
numeric point exactly the scalar classifier's bucket, provided
`round(B,1) ≤ round(C,1)`. -/
theorem C5_amended (a b c d v : ℚ)
    (ha : a ≠ 0) (hb : b ≠ 0) (hc : c ≠ 0) (hd : d ≠ 0)
    (hbc : pyRound1 b ≤ pyRound1 c) :
    sparkline_colors (some [some a, some b, some c, some d]) none = .ok (some
      [⟨"blue", "gt", pyRound1 c⟩, ⟨"green", "eq", pyRound1 c⟩, ⟨"green", "lt", pyRound1 c⟩,
       ⟨"red", "eq", pyRound1 b⟩, ⟨"red", "lt", pyRound1 b⟩]) ∧
    dataPt_color (some v) (some [some a, some b, some c, some d]) "" none = .ok
      (lastMatchColor
        [⟨"blue", "gt", pyRound1 c⟩, ⟨"green", "eq", pyRound1 c⟩, ⟨"green", "lt", pyRound1 c⟩,
         ⟨"red", "eq", pyRound1 b⟩, ⟨"red", "lt", pyRound1 b⟩] v "") := by
  have hall : pyAllL [some a, some b, some c, some d] = true := by
    simp [pyAllL, truthy, ha, hb, hc, hd]
  constructor
  · simp [sparkline_colors, hall, get_tri_colors, COLOR_MAP, COLOR_LOW, COLOR_NORM, COLOR_HIGH]
  · simp only [dataPt_color, hall, get_tri_colors, COLOR_MAP, COLOR_LOW, COLOR_NORM,
      COLOR_HIGH, lastMatchColor, firstMatchColor, List.reverse,
      ruleMatches_gt, ruleMatches_eq, ruleMatches_lt,
      List.find?, List.get?, Option.getD, List.getD, gt_iff_lt, if_true]
    split_ifs with hgt hle
    · have e1 : decide (v < pyRound1 b) = false := by
        simp only [decide_eq_false_iff_not, not_lt]
        linarith
      have e2 : decide (v = pyRound1 b) = false := by
        simp only [decide_eq_false_iff_not]
        intro h
        rw [h] at hgt
        linarith
      have e3 : decide (v < pyRound1 c) = false := by
        simp only [decide_eq_false_iff_not, not_lt]
        linarith
      have e4 : decide (v = pyRound1 c) = false := by
        simp only [decide_eq_false_iff_not]
        intro h
        rw [h] at hgt
        linarith
      have e5 : decide (pyRound1 c < v) = true := by simp [hgt]
      simp only [e1, e2, e3, e4, e5]
    · rcases lt_or_eq_of_le hle with hlt | heq
      · have e1 : decide (v < pyRound1 b) = true := by simp [hlt]
        simp only [e1]
      · have e1 : decide (v < pyRound1 b) = false := by simp [heq]
        have e2 : decide (v = pyRound1 b) = true := by simp [heq]
        simp only [e1, e2]
    · have e1 : decide (v < pyRound1 b) = false := by
        simp only [decide_eq_false_iff_not, not_lt]
        linarith [not_le.mp hle]
      have e2 : decide (v = pyRound1 b) = false := by
        simp only [decide_eq_false_iff_not]
        intro h
        exact hle (le_of_eq h)
      rcases lt_or_eq_of_le (not_lt.mp hgt) with hlt | heq
      · have e3 : decide (v < pyRound1 c) = true := by simp [hlt]
        simp only [e1, e2, e3]
      · have e3 : decide (v < pyRound1 c) = false := by simp [heq]
        have e4 : decide (v = pyRound1 c) = true := by simp [heq]
        simp only [e1, e2, e3, e4]

/-- C5 amended, witness at limits `(1, 10, 20, 30)`, point `15`. -/
theorem C5_amended_witness :
    sparkline_colors (some [some 1, some 10, some 20, some 30]) none = .ok (some
      [⟨"blue", "gt", pyRound1 20⟩, ⟨"green", "eq", pyRound1 20⟩, ⟨"green", "lt", pyRound1 20⟩,
       ⟨"red", "eq", pyRound1 10⟩, ⟨"red", "lt", pyRound1 10⟩]) ∧
    dataPt_color (some 15) (some [some 1, some 10, some 20, some 30]) "" none = .ok
      (lastMatchColor
        [⟨"blue", "gt", pyRound1 20⟩, ⟨"green", "eq", pyRound1 20⟩, ⟨"green", "lt", pyRound1 20⟩,
         ⟨"red", "eq", pyRound1 10⟩, ⟨"red", "lt", pyRound1 10⟩] 15 "") :=
  C5_amended 1 10 20 30 15 (by norm_num) (by norm_num) (by norm_num) (by norm_num)
    (by rw [pyRound1_ten, pyRound1_twenty]; norm_num)

/-- `Except` bind on `pure` reduces. -/
theorem except_bind_pure {α β : Type} (a : α) (f : α → Except String β) :
    Bind.bind (Pure.pure a : Except String α) f = f a := rfl

/-- `Except` bind on `ok` reduces. -/
theorem except_bind_ok {α β : Type} (a : α) (f : α → Except String β) :
    Bind.bind (Except.ok a : Except String α) f = f a := rfl

/-- A computation whose `isOk` flag is set is an `ok`. -/
theorem except_exists_ok {α : Type} (e : Except String α) (h : e.isOk = true) :
    ∃ a, e = .ok a := by
  cases e with
  | error err => simp [Except.isOk, Except.toBool] at h
  | ok a => exact ⟨a, rfl⟩

/-- `_sparkline_colors` returns normally on any 4-entry limits list. -/
theorem sparkline_colors_isOk (ls : List (Option ℚ)) (h4 : ls.length = 4) :
    ∃ r, sparkline_colors (some ls) none = .ok r := by
  rcases ls with _ | ⟨a, _ | ⟨b, _ | ⟨c, _ | ⟨d, rest⟩⟩⟩⟩ <;> simp at h4
  subst h4
  by_cases hall : pyAllL [a, b, c, d] = true
  · have hbt : truthy b = true := by
      simp [pyAllL] at hall
      simp [hall]
    have hct : truthy c = true := by
      simp [pyAllL] at hall
      simp [hall]
    rcases b with _ | bv
    · simp [truthy] at hbt
    rcases c with _ | cv
    · simp [truthy] at hct
    apply except_exists_ok
    simp only [sparkline_colors, hall, if_true]
    rfl
  · refine ⟨none, ?_⟩
    simp [sparkline_colors, hall]

/-- `_dataPt_color` returns normally on any 4-entry limits list. -/
theorem dataPt_color_isOk (v : Option ℚ) (ls : List (Option ℚ)) (h4 : ls.length = 4) :
    ∃ s, dataPt_color v (some ls) "" none = .ok s := by
  rcases v with _ | x
  · exact ⟨"", rfl⟩
  rcases ls with _ | ⟨a, _ | ⟨b, _ | ⟨c, _ | ⟨d, rest⟩⟩⟩⟩ <;> simp at h4
  subst h4
  by_cases hall : pyAllL [a, b, c, d] = true
  · have hbt : truthy b = true := by
      simp [pyAllL] at hall
      simp [hall]
    have hct : truthy c = true := by
      simp [pyAllL] at hall
      simp [hall]
    rcases b with _ | bv
    · simp [truthy] at hbt
    rcases c with _ | cv
    · simp [truthy] at hct
    simp only [dataPt_color, hall, if_true]
    by_cases h1 : x > pyRound1 cv
    · refine ⟨(get_tri_colors none).high, ?_⟩
      simp [h1]
    · by_cases hmid : x ≤ pyRound1 bv
      · refine ⟨(get_tri_colors none).low, ?_⟩
        simp [h1, hmid]
      · refine ⟨(get_tri_colors none).normal, ?_⟩
        simp [h1, hmid]
  · refine ⟨"", ?_⟩
    simp [dataPt_color, hall]

/-- The `prep_data` row body returns normally whenever the row's window has
at least two samples and its limits field is a 4-entry list. -/
theorem prep_row_isOk (row : DataRow) (f : ℚ)
    (h2 : 2 ≤ row.data.length)
    (hl : ∃ ls, row.limits = some ls ∧ ls.length = 4) :
    ∃ ds, prep_row row f 80 = .ok ds := by
  obtain ⟨ls, hls, h4⟩ := hl
  have hslice : 2 ≤ (pySliceLast (min (80 / 2) 40) row.data).length := by
    simp only [pySliceLast]
    norm_num
    omega
  have hne : pySliceLast (min (80 / 2) 40) row.data ≠ [] := by
    intro h
    rw [h] at hslice
    simp at hslice
  obtain ⟨x, hx⟩ : ∃ x, (pySliceLast (min (80 / 2) 40) row.data).getLast? = some x := by
    rcases h : (pySliceLast (min (80 / 2) 40) row.data).getLast? with _ | x
    · exact absurd (List.getLast?_eq_none_iff.mp h) hne
    · exact ⟨x, rfl⟩
  obtain ⟨r, hr⟩ := sparkline_colors_isOk ls h4
  obtain ⟨s, hs⟩ := dataPt_color_isOk
    (if is_valid x row.valid true then x else none) ls h4
  apply except_exists_ok
  simp only [prep_row, hls, hx]
  simp only [except_bind_pure]
  rw [dif_pos hslice]
  simp only [except_bind_pure, except_bind_ok, hr, hs]
  rfl

/-- C6 counterexample.  `prep_data` is *not* total on windows of length 0
or 1: `dataSlice[-1]` raises `IndexError` on an empty window and
`dataSlice[-2]` raises it on a one-sample window, even though every sample,
range and limit entry is well-formed. -/
theorem C6_counterexample :
    prep_data
      [("t", { data := ([] : List (Option ℚ)), valid := some (some 1, some 100),
               limits := some [some 1, some 10, some 20, some 30],
               label := "T", unit := "u" })]
      ["t"] (2/100) false 80 = .error "IndexError" ∧
    prep_data
      [("t", { data := [some 10], valid := some (some 1, some 100),
               limits := some [some 1, some 10, some 20, some 30],
               label := "T", unit := "u" })]
      ["t"] (2/100) false 80 = .error "IndexError" := by
  constructor <;> rfl

/-- C6 amended.  `prep_data` (at the default console width, labels off)
returns normally — encoding out-of-range and missing samples as sentinels,
never raising — for every input mapping whose selected rows have windows of
length at least 2 and 4-entry limit lists; windows of length 0 or 1 instead
raise `IndexError`.  (`is_valid` itself is total by construction.) -/
theorem C6_amended (inData : List (String × DataRow)) (dataTypes : List String) (f : ℚ)
    (H : ∀ kr ∈ inData, dataTypes.contains kr.1 = true →
      2 ≤ kr.2.data.length ∧ ∃ ls, kr.2.limits = some ls ∧ ls.length = 4) :
    ∃ out, prep_data inData dataTypes f false 80 = .ok out := by
  induction inData with
  | nil => exact ⟨[], rfl⟩
  | cons kr rest ih =>
      have Hrest : ∀ x ∈ rest, dataTypes.contains x.1 = true →
          2 ≤ x.2.data.length ∧ ∃ ls, x.2.limits = some ls ∧ ls.length = 4 :=
        fun x hx => H x (List.mem_cons_of_mem _ hx)
      obtain ⟨out, hout⟩ := ih Hrest
      by_cases hsel : dataTypes.contains kr.1 = true
      · obtain ⟨h2, hl⟩ := H kr (List.mem_cons_self _ _) hsel
        obtain ⟨ds, hds⟩ := prep_row_isOk kr.2 f h2 hl
        refine ⟨ds :: out, ?_⟩
        simp only [prep_data, hsel, eq_self_iff_true, if_true, Bool.false_eq_true,
          if_false, hds, hout, except_bind_ok]
        rfl
      · have hsel2 : dataTypes.contains kr.1 = false := by
          simpa using hsel
        refine ⟨out, ?_⟩
        simp only [prep_data, hsel2, Bool.false_eq_true, if_false]
        exact hout

/-- C6 amended, witness: a 2-sample window returns normally. -/
theorem C6_amended_witness :
    ∃ out, prep_data
      [("t", { data := [some 10, some 12], valid := some (some 1, some 100),
               limits := some [some 1, some 10, some 20, some 30],
               label := "T", unit := "u" })]
      ["t"] (2/100) false 80 = .ok out :=
  C6_amended _ _ _ (by
    intro kr hkr hsel
    rw [List.mem_singleton] at hkr
    subst hkr
    exact ⟨by norm_num, [some 1, some 10, some 20, some 30], rfl, rfl⟩)

/-- C7 counterexample.  At `first = 5`, `second = 0`, `f = 0.02` the band
degenerates to `(0, 0)`; `is_in_range` hands it to `is_valid`, whose
`not all(valid)` guard sees the falsy bound `0.0` and returns `True` — yet
`get_delta_range` returns `1` (5 is above the band), so the claimed
equivalence `is_in_range ↔ delta = 0` fails. -/
theorem C7_counterexample :
    is_in_range (some 5) (some 0) (2/100) = true ∧
    get_delta_range (some 5) (some 0) (2/100) = 1 := by
  constructor
  · norm_num [is_in_range, is_valid, pyAll2, pyAny2, truthy]
  · norm_num [get_delta_range]

/-- C7 amended.  The equivalence `is_in_range first second f = true ↔
get_delta_range first second f = 0` holds for non-`None` inputs whenever
both band edges `second*(1-f)` and `second*(1+f)` are nonzero (in
particular it fails when `second = 0` or `f = 1`); and `is_in_range` is
`True` whenever either argument is absent. -/
theorem C7_amended (x s f : ℚ)
    (h1 : s * (1 - f) ≠ 0) (h2 : s * (1 + f) ≠ 0) :
    (is_in_range (some x) (some s) f = true ↔ get_delta_range (some x) (some s) f = 0) ∧
    (∀ (y : Option ℚ) (g : ℚ), is_in_range none y g = true ∧ is_in_range y none g = true) := by
  constructor
  · have hiff : is_in_range (some x) (some s) f = true ↔
        (s * (1 - f) ≤ x ∧ x ≤ s * (1 + f)) := by
      simp [is_in_range, is_valid, pyAll2, pyAny2, truthy, h1, h2]
    have hiff2 : get_delta_range (some x) (some s) f = 0 ↔
        (s * (1 - f) ≤ x ∧ x ≤ s * (1 + f)) := by
      simp only [get_delta_range]
      split_ifs with hgt hlt
      · rw [iff_iff_implies_and_implies]
        constructor
        · intro h
          exact absurd h (by decide)
        · rintro ⟨hA, hB⟩
          linarith
      · rw [iff_iff_implies_and_implies]
        constructor
        · intro h
          exact absurd h (by decide)
        · rintro ⟨hA, hB⟩
          linarith
      · simp only [eq_self_iff_true, true_iff]
        push_neg at hgt hlt
        exact ⟨hlt, hgt⟩
    rw [hiff, hiff2]
  · intro y g
    cases y <;> exact ⟨rfl, rfl⟩

/-- C7 amended, witness at `first = 101`, `second = 100`, `f = 0.02`. -/
theorem C7_amended_witness :
    (is_in_range (some 101) (some 100) (2/100) = true ↔
      get_delta_range (some 101) (some 100) (2/100) = 0) ∧
    (∀ (y : Option ℚ) (g : ℚ), is_in_range none y g = true ∧ is_in_range y none g = true) :=
  C7_amended 101 100 (2/100) (by norm_num) (by norm_num)

/-- C8 counterexample.  A wholly absent (`None`) limit set does **not**
yield the default label: `all(limits)` raises `TypeError` for any
non-`None` value. -/
theorem C8_counterexample :
    dataPt_color (some 5) none "" none = .error "TypeError" := rfl

/-- C8 amended.  When the limit set is *present* as a list but falsy under
`all` (some entry `None` or `0`), scalar classification returns the
caller's default label for every value and the graph emphasis map is
absent, with no exception — in particular for the claim's limits
`(0, None, 20, 30)`.  A limit set that is itself absent (`None`) instead
raises `TypeError` for non-`None` values. -/
theorem C8_amended (v : Option ℚ) (ls : List (Option ℚ)) (dflt : String)
    (h : pyAllL ls = false) :
    dataPt_color v (some ls) dflt none = .ok dflt ∧
    sparkline_colors (some ls) none = .ok none := by
  constructor
  · cases v with
    | none => rfl
    | some x => simp [dataPt_color, h]
  · simp [sparkline_colors, h]

/-- C8 amended, witness at limits `(0, None, 20, 30)`, value `5`. -/
theorem C8_amended_witness :
    dataPt_color (some 5) (some [some 0, none, some 20, some 30]) "grey" none = .ok "grey" ∧
    sparkline_colors (some [some 0, none, some 20, some 30]) none = .ok none :=
  C8_amended (some 5) [some 0, none, some 20, some 30] "grey" (by rfl)

/-- C9 counterexample.  `is_valid` receives malformed ranges with
`min > max` and does not fail fast: it silently returns a boolean —
`True` for `(10, 0)` (the falsy bound `0` disables checking entirely) and
`False` for `(10, 1)`. -/
theorem C9_counterexample :
    is_valid (some 5) (some (some 10, some 0)) true = true ∧
    is_valid (some 5) (some (some 10, some 1)) true = false := by
  decide

/-- C9 amended.  `num_to_range` does fail fast, raising `ValueError` as
soon as either of its ranges has `min > max`; `is_valid`, by contrast,
never raises on a malformed range. -/
theorem C9_amended (n : Option ℚ) (iMM oMM : ℚ × ℚ) (frc : Bool) :
    (iMM.2 < iMM.1 → num_to_range n iMM oMM frc = .error "ValueError: inMinMax") ∧
    (iMM.1 ≤ iMM.2 → oMM.2 < oMM.1 → num_to_range n iMM oMM frc = .error "ValueError: outMinMax") := by
  constructor
  · intro h
    simp [num_to_range, h]
  · intro hok h
    simp only [num_to_range]
    rw [if_neg (not_lt.mpr hok), if_pos h]

/-- C9 amended, witness: `inMinMax = (10, 1)` raises immediately. -/
theorem C9_amended_witness :
    num_to_range none (10, 1) (0, 100) false = .error "ValueError: inMinMax" :=
  (C9_amended none (10, 1) (0, 100) false).1 (by norm_num)

/-- The state-threaded `prep_data` returns its input store unchanged. -/
theorem prep_data_st_snd (l : List (String × DataRow)) (dt : List String)
    (f : ℚ) (lo : Bool) (cw : Nat) :
    (prep_data_st l dt f lo cw).2 = l := by
  induction l with
  | nil => rfl
  | cons kr rest ih => simp [prep_data_st, ih]

/-- The state-threaded `prep_data` computes the same output as the direct
transcription. -/
theorem prep_data_st_fst (l : List (String × DataRow)) (dt : List String)
    (f : ℚ) (lo : Bool) (cw : Nat) :
    (prep_data_st l dt f lo cw).1 = prep_data l dt f lo cw := by
  induction l with
  | nil => rfl
  | cons kr rest ih =>
      simp only [prep_data_st, prep_data]
      by_cases hsel : dt.contains kr.1 = true
      · simp only [hsel, eq_self_iff_true, if_true]
        cases lo with
        | true =>
            simp only [if_true, ih]
        | false =>
            simp only [Bool.false_eq_true, if_false]
            cases hres : prep_row kr.2 f cw with
            | error e =>
                simp only [hres]
                rfl
            | ok ds => simp [hres, ih, except_bind_ok]
      · have hsel2 : dt.contains kr.1 = false := by simpa using hsel
        simp only [hsel2, Bool.false_eq_true, if_false]
        exact ih

/-- C10.  `prep_data` never mutates the input mapping (the post-state of
the state-threaded transcription is the input itself — the source contains
no assignment into `inData` or its rows), and running it a second time on
the post-state yields the identical output: a deterministic pure function
with no hidden state. -/
theorem C10_pure (inData : List (String × DataRow)) (dataTypes : List String)
    (f : ℚ) (lo : Bool) (cw : Nat) :
    (prep_data_st inData dataTypes f lo cw).2 = inData ∧
    (prep_data_st inData dataTypes f lo cw).1 = prep_data inData dataTypes f lo cw ∧
    (prep_data_st ((prep_data_st inData dataTypes f lo cw).2) dataTypes f lo cw).1 =
      (prep_data_st inData dataTypes f lo cw).1 := by
  refine ⟨prep_data_st_snd _ _ _ _ _, prep_data_st_fst _ _ _ _ _, ?_⟩
  rw [prep_data_st_snd]

/-- C5 counterexample.  With limits `(0, 10, 20, 30)` — all four entries
present — the emphasis map is `None`, not a 5-rule list (`all(limits)` is
falsy at the entry `0`).  And applying the emitted rules first-match-wins
does **not** reproduce the scalar classifier: with limits `(1, 10, 20, 30)`
the point `5` hits the third rule `green:lt:20` before either low rule, so
first-match gives "green" while the scalar classifier gives "red" (low). -/
theorem C5_counterexample :
    sparkline_colors (some [some 0, some 10, some 20, some 30]) none = .ok none ∧
    sparkline_colors (some [some 1, some 10, some 20, some 30]) none = .ok (some
      [⟨"blue", "gt", 20⟩, ⟨"green", "eq", 20⟩, ⟨"green", "lt", 20⟩,
       ⟨"red", "eq", 10⟩, ⟨"red", "lt", 10⟩]) ∧
    firstMatchColor
      [⟨"blue", "gt", 20⟩, ⟨"green", "eq", 20⟩, ⟨"green", "lt", 20⟩,
       ⟨"red", "eq", 10⟩, ⟨"red", "lt", 10⟩] 5 "" = "green" ∧
    dataPt_color (some 5) (some [some 1, some 10, some 20, some 30]) "" none = .ok "red" := by
  refine ⟨by rfl, ?_, by rfl, ?_⟩
  · norm_num [sparkline_colors, pyAllL, truthy, get_tri_colors, COLOR_MAP, COLOR_LOW,
      COLOR_NORM, COLOR_HIGH, pyRound1_ten, pyRound1_twenty]
  · norm_num [dataPt_color, pyAllL, truthy, get_tri_colors, COLOR_MAP, COLOR_LOW,
      COLOR_NORM, COLOR_HIGH, pyRound1_ten, pyRound1_twenty]
